import Mathlib

/-!
Verification development for the function plugin runtime of open-webui
(backend/open_webui/apps/webui/routers/functions.py).

The router endpoints are embedded directly from the source. The collaborators
that the router calls but whose code is outside the embedded tree — the Module
Loader and Import Rewriter (apps/webui/utils.py) and the Persistence Gateway
(apps/webui/models/functions.py) — are modelled from the specification, each
marked `Modelled from the spec:` in its doc comment.

Submitted source text is abstracted as a `Content` value that records the
observable outcome of compiling/executing it (the namespace it would produce,
or a failure), together with its parsed frontmatter. The filesystem side
channel (the per-function cache directory) is not modelled.
-/

/-- Module Loader failure kinds (spec §7): compilation failure, execution
failure, or no recognized entry-point shape. -/
inductive LoadError where
  | synErr
  | runErr
  | missingEntryPoint
deriving Repr, DecidableEq

/-- Errors surfaced by the endpoints, following the spec taxonomy (§7):
`validationError` for a bad id format or a valve type mismatch,
`duplicateError` for an id collision on create, `notFoundError` for a missing
function or absent tier schema, `loadErr` wrapping a Module Loader failure,
and `genericError` for the catch-all "Error creating/updating function". -/
inductive ApiError where
  | validationError
  | duplicateError
  | notFoundError
  | loadErr (e : LoadError)
  | genericError
deriving Repr, DecidableEq

/-- Function classification, inferred at load time (spec §3). -/
inductive FunctionType where
  | Filter
  | Action
  | Pipe
deriving Repr, DecidableEq

/-- Valve values: plain configuration data (ints, strings, booleans, null). -/
inductive Value where
  | vInt (n : Int)
  | vStr (s : String)
  | vBool (b : Bool)
  | vNone
deriving Repr, DecidableEq

inductive VType where
  | tInt
  | tStr
  | tBool
deriving Repr, DecidableEq

/-- Whether a value inhabits a declared field type. Models the Valves shape
validating a present field against its declared type. -/
def Value.hasType : Value → VType → Bool
  | .vInt _, .tInt => true
  | .vStr _, .tStr => true
  | .vBool _, .tBool => true
  | _, _ => false

/-- One declared field of a Valves/UserValves shape: name, type and optional
declared default. -/
structure VField where
  name : String
  vtype : VType
  default? : Option Value
deriving Repr, DecidableEq

/-- A declared configuration shape (what `Valves.schema()` describes). -/
abbrev VSchema := List VField

/-- A map of valve values, as submitted or as persisted. -/
abbrev ValveMap := List (String × Value)

/-- The namespace produced by executing a function's source: which entry-point
shapes it defines and which configuration shapes it declares. -/
structure PyNamespace where
  hasFilter : Bool
  hasAction : Bool
  hasPipe : Bool
  valves? : Option VSchema
  userValves? : Option VSchema
deriving Repr, DecidableEq

/-- Outcome of compiling and executing a piece of submitted source. -/
inductive ExecOutcome where
  | synFailure
  | runFailure
  | ok (ns : PyNamespace)
deriving Repr, DecidableEq

/-- Abstraction of submitted source text: its parsed frontmatter block and the
outcome executing it would produce. -/
structure Content where
  frontmatter : List (String × String)
  outcome : ExecOutcome
deriving Repr, DecidableEq

/-- Modelled from the spec: the Import Rewriter (§4.1) remaps import
statements and never fails. Over this abstract content representation —
which carries no import text, only the execution outcome — the remapping
is the identity. -/
def replace_imports (c : Content) : Content := c

/-- An in-memory executable module handle: the namespace it exposes plus the
content it was loaded from (its provenance). -/
structure ModuleHandle where
  ns : PyNamespace
  src : Content
deriving Repr, DecidableEq

/-- What the Module Loader returns on success: the handle, the inferred
classification, and the frontmatter. -/
structure LoadResult where
  module : ModuleHandle
  ftype : FunctionType
  frontmatter : List (String × String)
deriving Repr, DecidableEq

/-- Modelled from the spec: §4.2 Module Loader (apps/webui/utils.py, absent
from the embedded tree). Compilation/execution failures are reported as
LoadError; classification scans the namespace for entry-point shapes in fixed
priority order Filter, Action, Pipe, first match wins; no match is
`LoadError(MissingEntryPoint)`. The loader has no side effect on the
Registry. The id is used only to name the module in Python, so the outcome
here does not depend on it. -/
def load_function_module_by_id (_fid : String) (content : Content) :
    Except LoadError LoadResult :=
  match content.outcome with
  | .synFailure => .error .synErr
  | .runFailure => .error .runErr
  | .ok ns =>
    if ns.hasFilter then
      .ok ⟨⟨ns, content⟩, .Filter, content.frontmatter⟩
    else if ns.hasAction then
      .ok ⟨⟨ns, content⟩, .Action, content.frontmatter⟩
    else if ns.hasPipe then
      .ok ⟨⟨ns, content⟩, .Pipe, content.frontmatter⟩
    else
      .error .missingEntryPoint

/-- Python str.isidentifier restricted to ASCII ids: nonempty, first
character a letter or underscore, remaining characters letters, digits or
underscores. This is the format check `form_data.id.isidentifier()` at
functions.py line 77. -/
def pyIsIdentifier (s : String) : Bool :=
  match s.data with
  | [] => false
  | c :: cs =>
    (c.isAlpha || c = '_') && cs.all (fun d => d.isAlphanum || d = '_')

/-- ASCII lowercasing of one character. -/
def pyLowerChar (c : Char) : Char :=
  if c.isUpper then Char.ofNat (c.toNat + 32) else c

/-- Python str.lower restricted to ASCII, as applied at functions.py line 83. -/
def pyLower (s : String) : String := ⟨s.data.map pyLowerChar⟩

/-- The id format the spec asserts: a full match of `[a-z0-9_]+`. This
definition follows the SPEC wording, for comparison with the code's
`pyIsIdentifier` check. -/
def matchesIdRegex (s : String) : Bool :=
  !s.data.isEmpty && s.data.all (fun c => c.isLower || c.isDigit || c = '_')

/-- Frontmatter metadata attached to a record (`meta` in the data model). -/
structure FunctionMeta where
  description : String
  manifest : List (String × String)
deriving Repr, DecidableEq

/-- The form submitted to create/update endpoints (id, name, content, meta). -/
structure FunctionForm where
  id : String
  name : String
  content : Content
  meta : FunctionMeta
deriving Repr, DecidableEq

/-- A persisted function record (spec §3 data model). -/
structure FunctionRecord where
  id : String
  user_id : String
  name : String
  content : Content
  ftype : FunctionType
  meta : FunctionMeta
  is_active : Bool
  is_global : Bool
  valves : ValveMap
  created_at : Nat
  updated_at : Nat
deriving Repr, DecidableEq

/-- The typed partial update passed to the Persistence Gateway. Its fields
cover exactly the keys the router ever sends: the form dump excluding `id`
plus `type` for a content update, or a single toggle flag. -/
structure FunctionUpdate where
  name? : Option String := none
  content? : Option Content := none
  meta? : Option FunctionMeta := none
  ftype? : Option FunctionType := none
  is_active? : Option Bool := none
  is_global? : Option Bool := none
deriving Repr, DecidableEq

/-- Merge a partial update into a record. The id is never part of the
partial, so it is never changed. -/
def applyUpdate (r : FunctionRecord) (u : FunctionUpdate) : FunctionRecord :=
  { r with
    name := u.name?.getD r.name
    content := u.content?.getD r.content
    meta := u.meta?.getD r.meta
    ftype := u.ftype?.getD r.ftype
    is_active := u.is_active?.getD r.is_active
    is_global := u.is_global?.getD r.is_global }

/-- Durable state held by the Persistence Gateway: function records plus the
per-user valve table keyed by (function_id, user_id). -/
structure DB where
  functions : List FunctionRecord
  user_valves : List ((String × String) × ValveMap)
deriving Repr, DecidableEq

/-- Modelled from the spec: Persistence Gateway `getById(id) -> record|empty`. -/
def DB.getById (db : DB) (fid : String) : Option FunctionRecord :=
  db.functions.find? (fun r => r.id == fid)

/-- Modelled from the spec: Persistence Gateway
`insert(ownerId, type, record) -> record|fails(Duplicate)`; stamps both
timestamps with the current clock; toggle flags start cleared and valves
empty. -/
def DB.insert (db : DB) (uid : String) (ftype : FunctionType)
    (form : FunctionForm) (now : Nat) : Option (DB × FunctionRecord) :=
  if (db.getById form.id).isSome then
    none
  else
    let r : FunctionRecord :=
      { id := form.id, user_id := uid, name := form.name,
        content := form.content, ftype := ftype, meta := form.meta,
        is_active := false, is_global := false, valves := [],
        created_at := now, updated_at := now }
    some ({ db with functions := db.functions ++ [r] }, r)

/-- Modelled from the spec: Persistence Gateway
`update(id, partial) -> record|empty` — merges exactly the partial's fields
into the stored record, leaving every other field (the id included)
unchanged; empty when no record has the id. -/
def DB.update (db : DB) (fid : String) (u : FunctionUpdate) :
    Option (DB × FunctionRecord) :=
  match db.getById fid with
  | none => none
  | some r =>
    let r' := applyUpdate r u
    some ({ db with
            functions := db.functions.map (fun x => if x.id == fid then r' else x) },
          r')

/-- Modelled from the spec: Persistence Gateway `delete(id) -> bool`. -/
def DB.delete (db : DB) (fid : String) : DB × Bool :=
  if (db.getById fid).isSome then
    ({ db with functions := db.functions.filter (fun r => r.id != fid) }, true)
  else
    (db, false)

/-- Modelled from the spec: Persistence Gateway `setValves(id, data)`. -/
def DB.setValves (db : DB) (fid : String) (vs : ValveMap) : DB :=
  { db with
    functions := db.functions.map
      (fun r => if r.id == fid then { r with valves := vs } else r) }

/-- Modelled from the spec: Persistence Gateway `getValves(id) -> data`. -/
def DB.getValves (db : DB) (fid : String) : Option ValveMap :=
  (db.getById fid).map (fun r => r.valves)

/-- Modelled from the spec: Persistence Gateway `setUserValves(id, userId, data)`. -/
def DB.setUserValves (db : DB) (fid uid : String) (vs : ValveMap) : DB :=
  { db with
    user_valves :=
      ((fid, uid), vs) :: db.user_valves.filter (fun p => p.1 != (fid, uid)) }

/-- Modelled from the spec: Persistence Gateway `getUserValves(id, userId)`. -/
def DB.getUserValves (db : DB) (fid uid : String) : Option ValveMap :=
  (db.user_valves.find? (fun p => p.1 == (fid, uid))).map (fun p => p.2)

/-- The process-wide Function Registry: id to loaded module handle
(request.app.state.FUNCTIONS). -/
abbrev Registry := List (String × ModuleHandle)

def Registry.rget (r : Registry) (fid : String) : Option ModuleHandle :=
  (r.find? (fun p => p.1 == fid)).map (fun p => p.2)

def Registry.rset (r : Registry) (fid : String) (h : ModuleHandle) : Registry :=
  (fid, h) :: r.filter (fun p => p.1 != fid)

def Registry.revict (r : Registry) (fid : String) : Registry :=
  r.filter (fun p => p.1 != fid)

/-- The full state an endpoint can read or mutate: the durable store, the
in-memory Registry, and the gateway's clock (only `insert` reads it). -/
structure AppState where
  db : DB
  registry : Registry
  now : Nat
deriving Repr, DecidableEq

def isError {α β : Type} : Except α β → Bool
  | .error _ => true
  | .ok _ => false

instance {α β : Type} [DecidableEq α] [DecidableEq β] :
    DecidableEq (Except α β) := fun
  | .error a, .error b =>
    if h : a = b then .isTrue (h ▸ rfl)
    else .isFalse (fun he => h (Except.error.inj he))
  | .ok a, .ok b =>
    if h : a = b then .isTrue (h ▸ rfl)
    else .isFalse (fun he => h (Except.ok.inj he))
  | .error _, .ok _ => .isFalse (fun he => Except.noConfusion he)
  | .ok _, .error _ => .isFalse (fun he => Except.noConfusion he)

/-- create_new_function (functions.py lines 63-120). Checks the id format,
lowercases the id, checks for a duplicate, then rewrites imports and loads
the module; on load success it commits the handle to the Registry, attaches
the frontmatter to the form meta, and inserts the record. A failure in the
try block is reported as an HTTP 400, here carrying the underlying error
kind. The cache-directory side effect is not modelled. -/
def create_new_function (uid : String) (form : FunctionForm) (st : AppState) :
    AppState × Except ApiError FunctionRecord :=
  if !pyIsIdentifier form.id then
    (st, .error .validationError)
  else
    match st.db.getById (pyLower form.id) with
    | some _ => (st, .error .duplicateError)
    | none =>
      match load_function_module_by_id (pyLower form.id)
          (replace_imports form.content) with
      | .error e => (st, .error (.loadErr e))
      | .ok lr =>
        match st.db.insert uid lr.ftype
            { form with id := pyLower form.id,
                        content := replace_imports form.content,
                        meta := { form.meta with manifest := lr.frontmatter } }
            st.now with
        | some (db', rec) =>
          ({ st with db := db',
                     registry := st.registry.rset (pyLower form.id) lr.module },
           .ok rec)
        | none =>
          ({ st with registry := st.registry.rset (pyLower form.id) lr.module },
           .error .genericError)

/-- update_function_by_id (functions.py lines 231-273). Rewrites imports and
loads the new content; on load success it overwrites the Registry entry and
then asks the gateway to update the record with the form dump excluding the
id, plus the inferred type. Note the Registry is mutated before the
persistence update, and stays mutated if that update returns empty. -/
def update_function_by_id (fid : String) (form : FunctionForm) (st : AppState) :
    AppState × Except ApiError FunctionRecord :=
  match load_function_module_by_id fid (replace_imports form.content) with
  | .error e => (st, .error (.loadErr e))
  | .ok lr =>
    match st.db.update fid
        { name? := some form.name,
          content? := some (replace_imports form.content),
          meta? := some { form.meta with manifest := lr.frontmatter },
          ftype? := some lr.ftype } with
    | some (db', rec) =>
      ({ st with db := db', registry := st.registry.rset fid lr.module },
       .ok rec)
    | none =>
      ({ st with registry := st.registry.rset fid lr.module },
       .error .genericError)

/-- delete_function_by_id (functions.py lines 282-303). Deletes the persisted
record; only when that reports success is the Registry entry (if any)
removed. -/
def delete_function_by_id (fid : String) (st : AppState) : AppState × Bool :=
  if (st.db.delete fid).2 then
    ({ st with db := (st.db.delete fid).1,
               registry := st.registry.revict fid }, true)
  else
    (st, false)

/-- toggle_function_by_id (functions.py lines 157-185). Flips is_active via a
single-field gateway update; no module load is involved. -/
def toggle_function_by_id (fid : String) (st : AppState) :
    AppState × Except ApiError FunctionRecord :=
  match st.db.getById fid with
  | none => (st, .error .notFoundError)
  | some r =>
    match st.db.update fid { is_active? := some (!r.is_active) } with
    | some (db', rec) => ({ st with db := db' }, .ok rec)
    | none => (st, .error .genericError)

/-- toggle_global_by_id (functions.py lines 194-222). Flips is_global via a
single-field gateway update; no module load is involved. -/
def toggle_global_by_id (fid : String) (st : AppState) :
    AppState × Except ApiError FunctionRecord :=
  match st.db.getById fid with
  | none => (st, .error .notFoundError)
  | some r =>
    match st.db.update fid { is_global? := some (!r.is_global) } with
    | some (db', rec) => ({ st with db := db' }, .ok rec)
    | none => (st, .error .genericError)

/-- The lazy-load step shared by the valve endpoints (functions.py lines
362-366, 402-406, 486-490, 522-526): use the cached handle when present,
otherwise load from the record's stored content and commit the handle to
the Registry. -/
def ensureHandle (fid : String) (rec : FunctionRecord) (st : AppState) :
    AppState × Except LoadError ModuleHandle :=
  match st.registry.rget fid with
  | some h => (st, .ok h)
  | none =>
    match load_function_module_by_id fid rec.content with
    | .ok lr =>
      ({ st with registry := st.registry.rset fid lr.module }, .ok lr.module)
    | .error e => (st, .error e)

/-- One field of a pydantic model construction: the submitted value when the
key is present (failing when its type mismatches the declaration), otherwise
the declared default (failing when the field has none). -/
def buildField (f : VField) (m : ValveMap) : Option (String × Value) :=
  match m.lookup f.name with
  | some v => if v.hasType f.vtype then some (f.name, v) else none
  | none => f.default?.map (fun d => (f.name, d))

/-- Pydantic model construction `Valves(**form_data)` followed by
`model_dump()`: every declared field is built by `buildField`, any failure
fails the whole construction, and keys not declared by the schema are
ignored. No coercion between types is modelled. -/
def buildValves : VSchema → ValveMap → Option ValveMap
  | [], _ => some []
  | f :: rest, m =>
    match buildField f m with
    | none => none
    | some kv =>
      match buildValves rest m with
      | none => none
      | some kvs => some (kv :: kvs)

/-- The null-stripping step `{k: v for k, v in form_data.items() if v is not
None}` (functions.py lines 412, 532). -/
def stripNulls (m : ValveMap) : ValveMap :=
  m.filter (fun kv => kv.2 != Value.vNone)

/-- get_function_valves_spec_by_id (functions.py lines 346-376). Requires the
record to exist, lazily loads the handle, then returns the declared Valves
schema — or None (not an error) when the module declares no Valves shape. -/
def get_function_valves_spec_by_id (fid : String) (st : AppState) :
    AppState × Except ApiError (Option VSchema) :=
  match st.db.getById fid with
  | none => (st, .error .notFoundError)
  | some rec =>
    match ensureHandle fid rec st with
    | (st', .error e) => (st', .error (.loadErr e))
    | (st', .ok h) => (st', .ok h.ns.valves?)

/-- update_function_valves_by_id (functions.py lines 385-432). Requires the
record, lazily loads the handle, reports NotFound when no Valves shape is
declared; otherwise strips nulls, constructs a fresh Valves value from the
submitted fields (schema defaults fill the rest), persists its dump via the
gateway and returns it; a construction failure is a validation error leaving
the persisted valves untouched. -/
def update_function_valves_by_id (fid : String) (m : ValveMap) (st : AppState) :
    AppState × Except ApiError ValveMap :=
  match st.db.getById fid with
  | none => (st, .error .notFoundError)
  | some rec =>
    match ensureHandle fid rec st with
    | (st', .error e) => (st', .error (.loadErr e))
    | (st', .ok h) =>
      match h.ns.valves? with
      | none => (st', .error .notFoundError)
      | some schema =>
        match buildValves schema (stripNulls m) with
        | none => (st', .error .validationError)
        | some vs => ({ st' with db := st'.db.setValves fid vs }, .ok vs)

/-- get_function_user_valves_spec_by_id (functions.py lines 470-500): the
user-tier mirror of the Valves spec endpoint, returning None when the module
declares no UserValves shape. -/
def get_function_user_valves_spec_by_id (fid : String) (st : AppState) :
    AppState × Except ApiError (Option VSchema) :=
  match st.db.getById fid with
  | none => (st, .error .notFoundError)
  | some rec =>
    match ensureHandle fid rec st with
    | (st', .error e) => (st', .error (.loadErr e))
    | (st', .ok h) => (st', .ok h.ns.userValves?)

/-- update_function_user_valves_by_id (functions.py lines 504-553): the
user-tier mirror of the valve update, persisting per (function_id, user_id). -/
def update_function_user_valves_by_id (fid uid : String) (m : ValveMap)
    (st : AppState) : AppState × Except ApiError ValveMap :=
  match st.db.getById fid with
  | none => (st, .error .notFoundError)
  | some rec =>
    match ensureHandle fid rec st with
    | (st', .error e) => (st', .error (.loadErr e))
    | (st', .ok h) =>
      match h.ns.userValves? with
      | none => (st', .error .notFoundError)
      | some schema =>
        match buildValves schema (stripNulls m) with
        | none => (st', .error .validationError)
        | some vs =>
          ({ st' with db := st'.db.setUserValves fid uid vs }, .ok vs)

/-! Concrete fixtures used by witnesses and counterexamples. -/

/-- A namespace defining a Filter entry point and a Valves shape with two int
fields, `a` defaulting to 1 and `b` defaulting to 2. -/
def exSchemaAB : VSchema :=
  [⟨"a", .tInt, some (.vInt 1)⟩, ⟨"b", .tInt, some (.vInt 2)⟩]

def exContentAB : Content :=
  ⟨[("title", "t")], .ok ⟨true, false, false, some exSchemaAB, none⟩⟩

/-- Source whose namespace defines no recognized entry-point shape. -/
def exContentNoEntry : Content := ⟨[], .ok ⟨false, false, false, none, none⟩⟩

/-- A Filter module declaring neither Valves nor UserValves. -/
def exContentBare : Content := ⟨[], .ok ⟨true, false, false, none, none⟩⟩

def exEmptyState : AppState := ⟨⟨[], []⟩, [], 7⟩

def exForm (i : String) (c : Content) : FunctionForm := ⟨i, "n", c, ⟨"d", []⟩⟩

/-- A state holding function "f" (module exContentAB) whose persisted valves
are a=5, b=7. -/
def exStateValves : AppState :=
  let st1 := (create_new_function "u" (exForm "f" exContentAB) exEmptyState).1
  { st1 with db := st1.db.setValves "f" [("a", .vInt 5), ("b", .vInt 7)] }

/-- A state holding function "h" whose module declares no valve shapes. -/
def exStateBare : AppState :=
  (create_new_function "u" (exForm "h" exContentBare) exEmptyState).1

/-! Helper lemmas about the gateway and registry. -/

theorem find?_map_replace (l : List FunctionRecord) (fid : String)
    (r r' : FunctionRecord) (h : l.find? (fun x => x.id == fid) = some r)
    (h' : r'.id = r.id) :
    (l.map (fun x => if x.id == fid then r' else x)).find?
      (fun x => x.id == fid) = some r' := by
  induction l with
  | nil => simp at h
  | cons a l ih =>
    by_cases ha : (a.id == fid) = true
    · simp only [List.find?, ha] at h
      injection h with h
      subst h
      have hb : (r'.id == fid) = true := by rw [h']; exact ha
      simp only [List.map_cons, if_pos ha, List.find?, hb]
    · rw [Bool.not_eq_true] at ha
      simp only [List.find?, ha] at h
      have hif : (if (a.id == fid) = true then r' else a) = a := by
        rw [ha]; simp
      rw [List.map_cons, hif]
      simp only [List.find?, ha]
      exact ih h

theorem find?_map_modify (l : List FunctionRecord) (fid : String)
    (g : FunctionRecord → FunctionRecord) (hg : ∀ x, (g x).id = x.id)
    (r : FunctionRecord) (h : l.find? (fun x => x.id == fid) = some r) :
    (l.map (fun x => if x.id == fid then g x else x)).find?
      (fun x => x.id == fid) = some (g r) := by
  induction l with
  | nil => simp at h
  | cons a l ih =>
    by_cases ha : (a.id == fid) = true
    · simp only [List.find?, ha] at h
      injection h with h
      subst h
      have hb : ((g a).id == fid) = true := by rw [hg a]; exact ha
      simp only [List.map_cons, if_pos ha, List.find?, hb]
    · rw [Bool.not_eq_true] at ha
      simp only [List.find?, ha] at h
      have hif : (if (a.id == fid) = true then g a else a) = a := by
        rw [ha]; simp
      rw [List.map_cons, hif]
      simp only [List.find?, ha]
      exact ih h

theorem applyUpdate_id (r : FunctionRecord) (u : FunctionUpdate) :
    (applyUpdate r u).id = r.id := rfl

/-- Gateway update on an existing record: produces the merged record and a
store in which lookup of the id yields exactly that record. -/
theorem DB.update_found (db : DB) (fid : String) (u : FunctionUpdate)
    (r : FunctionRecord) (h : db.getById fid = some r) :
    db.update fid u =
      some (DB.mk (db.functions.map
              (fun x => if x.id == fid then applyUpdate r u else x))
              db.user_valves,
            applyUpdate r u) ∧
    (DB.mk (db.functions.map
        (fun x => if x.id == fid then applyUpdate r u else x))
        db.user_valves).getById fid
      = some (applyUpdate r u) := by
  constructor
  · simp only [DB.update, h]
  · have := find?_map_replace db.functions fid r (applyUpdate r u) h
      (applyUpdate_id r u)
    simpa [DB.getById] using this

theorem DB.getById_setValves (db : DB) (fid : String) (vs : ValveMap)
    (r : FunctionRecord) (h : db.getById fid = some r) :
    (db.setValves fid vs).getById fid = some { r with valves := vs } := by
  have hf := find?_map_modify db.functions fid
    (fun x => { x with valves := vs }) (fun _ => rfl) r h
  simpa [DB.getById, DB.setValves] using hf

theorem rget_rset_self (r : Registry) (fid : String) (h : ModuleHandle) :
    (r.rset fid h).rget fid = some h := by
  simp [Registry.rget, Registry.rset, List.find?]

theorem rget_revict_self (r : Registry) (fid : String) :
    (r.revict fid).rget fid = none := by
  have : (r.revict fid).find? (fun p => p.1 == fid) = none := by
    rw [List.find?_eq_none]
    intro p hp
    have := List.of_mem_filter hp
    simp only [bne_iff_ne, ne_eq] at this
    simp [this]
  simp [Registry.rget, this]

theorem getById_delete_self (db : DB) (fid : String) :
    ((db.delete fid).1).getById fid = none := by
  unfold DB.delete
  by_cases h : (db.getById fid).isSome = true
  · rw [if_pos h]
    have : (db.functions.filter (fun r => r.id != fid)).find?
        (fun r => r.id == fid) = none := by
      rw [List.find?_eq_none]
      intro r hr
      have := List.of_mem_filter hr
      simp only [bne_iff_ne, ne_eq] at this
      simp [this]
    simp [DB.getById, this]
  · rw [if_neg h]
    rw [Bool.not_eq_true] at h
    cases hx : db.getById fid with
    | none => rfl
    | some r => rw [hx] at h; simp at h

theorem buildValves_mismatch (schema : VSchema) (m : ValveMap) (f : VField)
    (hf : f ∈ schema) (v : Value) (hv : m.lookup f.name = some v)
    (ht : v.hasType f.vtype = false) :
    buildValves schema m = none := by
  induction schema with
  | nil => simp at hf
  | cons g rest ih =>
    rcases List.mem_cons.mp hf with hfg | hfr
    · subst hfg
      have hb : buildField f m = none := by
        unfold buildField
        rw [hv]
        simp [ht]
      unfold buildValves
      rw [hb]
    · unfold buildValves
      cases hb : buildField g m with
      | none => rfl
      | some kv => rw [ih hfr]

theorem buildValves_mem_default (schema : VSchema) (m : ValveMap)
    (vs : ValveMap) (h : buildValves schema m = some vs) (f : VField)
    (hf : f ∈ schema) (hm : m.lookup f.name = none) :
    ∃ d, f.default? = some d ∧ (f.name, d) ∈ vs := by
  induction schema generalizing vs with
  | nil => simp at hf
  | cons g rest ih =>
    unfold buildValves at h
    cases hb : buildField g m with
    | none => rw [hb] at h; exact absurd h (by simp)
    | some kv =>
      rw [hb] at h
      cases hrest : buildValves rest m with
      | none => rw [hrest] at h; exact absurd h (by simp)
      | some kvs =>
        rw [hrest] at h
        injection h with h
        subst h
        rcases List.mem_cons.mp hf with hfg | hfr
        · subst hfg
          unfold buildField at hb
          rw [hm] at hb
          rcases hd : f.default? with _ | d
          · rw [hd] at hb; simp at hb
          · rw [hd] at hb
            simp only [Option.map_some'] at hb
            injection hb with hb
            exact ⟨d, rfl, by rw [← hb]; exact List.mem_cons_self _ _⟩
        · rcases ih kvs hrest hfr with ⟨d, hd, hmem⟩
          exact ⟨d, hd, List.mem_cons_of_mem _ hmem⟩

theorem buildValves_mem_submitted (schema : VSchema) (m : ValveMap)
    (vs : ValveMap) (h : buildValves schema m = some vs) (f : VField)
    (hf : f ∈ schema) (v : Value) (hm : m.lookup f.name = some v) :
    (f.name, v) ∈ vs := by
  induction schema generalizing vs with
  | nil => simp at hf
  | cons g rest ih =>
    unfold buildValves at h
    cases hb : buildField g m with
    | none => rw [hb] at h; exact absurd h (by simp)
    | some kv =>
      rw [hb] at h
      cases hrest : buildValves rest m with
      | none => rw [hrest] at h; exact absurd h (by simp)
      | some kvs =>
        rw [hrest] at h
        injection h with h
        subst h
        rcases List.mem_cons.mp hf with hfg | hfr
        · subst hfg
          unfold buildField at hb
          rw [hm] at hb
          by_cases ht : v.hasType f.vtype = true
          · simp only [ht, if_true] at hb
            injection hb with hb
            rw [← hb]
            exact List.mem_cons_self _ _
          · rw [Bool.not_eq_true] at ht
            simp [ht] at hb
        · exact List.mem_cons_of_mem _ (ih kvs hrest hfr)

/-! Claim theorems. -/

/-- C2 counterexample: the claim ties the format check to the regular
expression `[a-z0-9_]+`, but the code checks `str.isidentifier()`.
The id "0a" matches the regex yet create rejects it with a ValidationError,
and the id "A" does not match the regex yet passes the format check (create
succeeds). -/
theorem C2_counterexample :
    matchesIdRegex "0a" = true ∧
    create_new_function "u" (exForm "0a" exContentAB) exEmptyState
      = (exEmptyState, .error .validationError) ∧
    matchesIdRegex "A" = false ∧
    isError (create_new_function "u" (exForm "A" exContentAB) exEmptyState).2
      = false := by
  refine ⟨by decide, by decide, by decide, by decide⟩

/-- C2 (amended): create fails its format check with a ValidationError —
leaving the persisted state and the Registry unchanged — exactly when the
submitted id is not a Python identifier (nonempty, first character a letter
or underscore, the rest letters, digits or underscores). -/
theorem C2_format_check_matches_python_identifier (uid : String)
    (form : FunctionForm) (st : AppState) :
    create_new_function uid form st = (st, .error .validationError) ↔
      pyIsIdentifier form.id = false := by
  constructor
  · intro h
    by_cases hid : pyIsIdentifier form.id = false
    · exact hid
    · exfalso
      rw [Bool.not_eq_false] at hid
      unfold create_new_function at h
      rw [hid] at h
      simp only [Bool.not_true, Bool.false_eq_true, if_false] at h
      split at h
      · simp at h
      · split at h
        · simp at h
        · split at h
          · simp at h
          · simp at h
  · intro h
    unfold create_new_function
    rw [h]
    simp

/-- C2 witness: instantiating the amended theorem at the concrete rejected
id "0a". -/
theorem C2_witness :
    create_new_function "u" (exForm "0a" exContentAB) exEmptyState
      = (exEmptyState, .error .validationError) :=
  (C2_format_check_matches_python_identifier "u" (exForm "0a" exContentAB)
    exEmptyState).mpr (by decide)

/-- C4 counterexample: on a loaded module declaring no Valves shape, the
admin schema-introspection endpoint returns None as a successful result
(functions.py line 371 `return None`) instead of reporting NotFoundError as
the claim states; likewise for the user tier (line 495). -/
theorem C4_counterexample :
    (get_function_valves_spec_by_id "h" exStateBare).2 = .ok none ∧
    (get_function_valves_spec_by_id "h" exStateBare).2
      ≠ .error .notFoundError ∧
    (get_function_user_valves_spec_by_id "h" exStateBare).2 = .ok none := by
  refine ⟨by decide, by decide, by decide⟩

/-- C4 (amended): when the loaded module declares no Valves/UserValves shape,
the valve UPDATE operations (admin and user tier) report NotFoundError and
leave the state unchanged, but the schema INTROSPECTION operations return
an empty result (None) without error. -/
theorem C4_absent_shape_behaviour (fid uid : String) (m : ValveMap)
    (st : AppState) (h1 : (st.db.getById fid).isSome = true)
    (h2 : (st.registry.rget fid).map (fun h => h.ns.valves?) = some none)
    (h3 : (st.registry.rget fid).map (fun h => h.ns.userValves?) = some none) :
    get_function_valves_spec_by_id fid st = (st, .ok none) ∧
    update_function_valves_by_id fid m st = (st, .error .notFoundError) ∧
    get_function_user_valves_spec_by_id fid st = (st, .ok none) ∧
    update_function_user_valves_by_id fid uid m st
      = (st, .error .notFoundError) := by
  obtain ⟨rec, hrec⟩ := Option.isSome_iff_exists.mp h1
  obtain ⟨hdl, hh, hv⟩ := Option.map_eq_some'.mp h2
  obtain ⟨hdl2, hh2, hu⟩ := Option.map_eq_some'.mp h3
  rw [hh] at hh2
  injection hh2 with hh2
  subst hh2
  have hens : ensureHandle fid rec st = (st, .ok hdl) := by
    unfold ensureHandle
    rw [hh]
  refine ⟨?_, ?_, ?_, ?_⟩ <;>
    simp [get_function_valves_spec_by_id, update_function_valves_by_id,
          get_function_user_valves_spec_by_id,
          update_function_user_valves_by_id, hrec, hens, hv, hu]

/-- C4 witness: the amended theorem instantiated on the Filter module that
declares neither shape. -/
theorem C4_witness :
    (exStateBare.db.getById "h").isSome = true ∧
    update_function_valves_by_id "h" [] exStateBare
      = (exStateBare, .error .notFoundError) := by
  refine ⟨by decide, ?_⟩
  exact (C4_absent_shape_behaviour "h" "u2" [] exStateBare (by decide)
    (by decide) (by decide)).2.1

/-- A state reachable from the empty state by one API call: updating the
nonexistent id "g" with loadable content. The update writes the Registry
before the persistence update fails, leaving a Registry entry with no
persisted record. -/
def exStrayState : AppState :=
  (update_function_by_id "g" (exForm "g" exContentAB) exEmptyState).1

/-- C8 counterexample: in the reachable state exStrayState the Registry holds
an entry for "g" while no record is persisted; deleting "g" returns false and
leaves the Registry entry in place, so a subsequent Registry lookup is not
empty — contradicting the claim that deletion always clears both stores. -/
theorem C8_counterexample :
    exStrayState.db.getById "g" = none ∧
    (exStrayState.registry.rget "g").isSome = true ∧
    (delete_function_by_id "g" exStrayState).2 = false ∧
    ((delete_function_by_id "g" exStrayState).1.registry.rget "g").isSome
      = true := by
  refine ⟨by decide, by decide, by decide, by decide⟩

/-- C8 (amended): deleting an id whose record is persisted removes both the
record and any Registry entry, and subsequent lookups on both return empty;
deleting an id with no persisted record returns false and leaves the whole
state — the Registry entry included, if one is present — untouched. -/
theorem C8_delete_clears_both_when_persisted (fid : String) (st : AppState) :
    ((st.db.getById fid).isSome = true →
      (delete_function_by_id fid st).2 = true ∧
      (delete_function_by_id fid st).1.db.getById fid = none ∧
      (delete_function_by_id fid st).1.registry.rget fid = none) ∧
    ((st.db.getById fid).isSome = false →
      delete_function_by_id fid st = (st, false)) := by
  constructor
  · intro h
    have hd : st.db.delete fid =
        (DB.mk (st.db.functions.filter (fun r => r.id != fid))
          st.db.user_valves, true) := by
      unfold DB.delete
      rw [if_pos h]
    have hg := getById_delete_self st.db fid
    rw [hd] at hg
    unfold delete_function_by_id
    rw [hd]
    exact ⟨rfl, hg, rget_revict_self st.registry fid⟩
  · intro h
    have hd : st.db.delete fid = (st.db, false) := by
      unfold DB.delete
      rw [if_neg (by simp [h])]
    unfold delete_function_by_id
    rw [hd]
    rfl

/-- C8 witness: the amended theorem applied to a state persisting "f". -/
theorem C8_witness :
    (exStateValves.db.getById "f").isSome = true ∧
    (delete_function_by_id "f" exStateValves).2 = true ∧
    (delete_function_by_id "f" exStateValves).1.db.getById "f" = none ∧
    (delete_function_by_id "f" exStateValves).1.registry.rget "f" = none := by
  have h : (exStateValves.db.getById "f").isSome = true := by decide
  have := (C8_delete_clears_both_when_persisted "f" exStateValves).1 h
  exact ⟨h, this.1, this.2.1, this.2.2⟩

/-- C1: validation (import rewrite, then load with classification) runs
before any mutation; when the Module Loader rejects the rewritten content —
a missing entry point included — create returns the state unchanged with an
error, and update returns the state unchanged with the wrapped LoadError. -/
theorem C1_validation_before_mutation (uid fid : String) (form : FunctionForm)
    (st : AppState) (e : LoadError)
    (h : ∀ i : String,
      load_function_module_by_id i (replace_imports form.content) = .error e) :
    (create_new_function uid form st).1 = st ∧
    isError (create_new_function uid form st).2 = true ∧
    update_function_by_id fid form st = (st, .error (.loadErr e)) := by
  refine ⟨?_, ?_, ?_⟩
  · unfold create_new_function
    split
    · rfl
    · split
      · rfl
      · rw [h (pyLower form.id)]
  · unfold create_new_function
    split
    · rfl
    · split
      · rfl
      · rw [h (pyLower form.id)]
        rfl
  · unfold update_function_by_id
    rw [h fid]

/-- C1 witness: content with no recognized entry-point shape fails loading
with MissingEntryPoint, and neither create nor update changes the state. -/
theorem C1_witness :
    (create_new_function "u" (exForm "f" exContentNoEntry) exEmptyState).1
      = exEmptyState ∧
    update_function_by_id "f" (exForm "f" exContentNoEntry) exEmptyState
      = (exEmptyState, .error (.loadErr .missingEntryPoint)) := by
  have h : ∀ i : String, load_function_module_by_id i
      (replace_imports (exForm "f" exContentNoEntry).content)
      = .error .missingEntryPoint := fun i => rfl
  have hc := C1_validation_before_mutation "u" "f"
    (exForm "f" exContentNoEntry) exEmptyState .missingEntryPoint h
  exact ⟨hc.1, hc.2.2⟩

theorem find?_append_some (l : List FunctionRecord) (r : FunctionRecord)
    (p : FunctionRecord → Bool) (hl : l.find? p = none) (hr : p r = true) :
    (l ++ [r]).find? p = some r := by
  induction l with
  | nil => simp [List.find?, hr]
  | cons a l ih =>
    by_cases ha : p a = true
    · simp only [List.find?, ha] at hl
      exact Option.noConfusion hl
    · rw [Bool.not_eq_true] at ha
      simp only [List.find?, ha] at hl
      simp only [List.cons_append, List.find?, ha]
      exact ih hl

/-- Inversion for a successful gateway update: the id was present, the
result is the merge, and the store is the pointwise replacement. -/
theorem DB.update_cases (db : DB) (fid : String) (u : FunctionUpdate)
    (db' : DB) (rec : FunctionRecord) (h : db.update fid u = some (db', rec)) :
    ∃ r, db.getById fid = some r ∧ rec = applyUpdate r u ∧
      db'.functions = db.functions.map
        (fun x => if x.id == fid then applyUpdate r u else x) ∧
      db'.user_valves = db.user_valves := by
  unfold DB.update at h
  cases hg : db.getById fid with
  | none => rw [hg] at h; simp at h
  | some r =>
    rw [hg] at h
    simp only [Option.some.injEq, Prod.mk.injEq] at h
    exact ⟨r, rfl, h.2.symm, by rw [← h.1], by rw [← h.1]⟩

theorem map_id_replace (l : List FunctionRecord) (fid : String)
    (r' : FunctionRecord) (hid : r'.id = fid) :
    (l.map (fun x => if x.id == fid then r' else x)).map (fun x => x.id)
      = l.map (fun x => x.id) := by
  rw [List.map_map]
  apply List.map_congr_left
  intro x _
  by_cases hx : (x.id == fid) = true
  · have : x.id = fid := by rwa [beq_iff_eq] at hx
    simp [Function.comp, hx, hid, this]
  · rw [Bool.not_eq_true] at hx
    simp [Function.comp, hx]

/-- A successful gateway update never changes any record's id. -/
theorem update_preserves_ids (db : DB) (fid : String) (u : FunctionUpdate)
    (db' : DB) (rec : FunctionRecord) (h : db.update fid u = some (db', rec)) :
    db'.functions.map (fun r => r.id) = db.functions.map (fun r => r.id) := by
  obtain ⟨r, hg, _, hfun, _⟩ := DB.update_cases db fid u db' rec h
  have hr : r.id = fid := by
    have := List.find?_some hg
    rwa [beq_iff_eq] at this
  rw [hfun]
  exact map_id_replace db.functions fid (applyUpdate r u) (by rw [applyUpdate_id, hr])

/-- Lemma shared by the uniqueness claims: creating an id that is already
persisted (after lowercasing) fails with DuplicateError and changes
nothing. -/
theorem create_duplicate_of_persisted (uid : String) (form : FunctionForm)
    (st : AppState) (hid : pyIsIdentifier form.id = true)
    (h : (st.db.getById (pyLower form.id)).isSome = true) :
    create_new_function uid form st = (st, .error .duplicateError) := by
  obtain ⟨r, hr⟩ := Option.isSome_iff_exists.mp h
  unfold create_new_function
  rw [hid]
  simp only [Bool.not_true, Bool.false_eq_true, if_false]
  rw [hr]

/-- Lemma shared by the creation claims: a successful create returns a record
whose id is the lowercased submitted id, persists it under that id, and
commits a Registry entry for that id. -/
theorem create_ok_characterization (uid : String) (form : FunctionForm)
    (st : AppState) (h : isError (create_new_function uid form st).2 = false) :
    ∃ rec, (create_new_function uid form st).2 = .ok rec ∧
      rec.id = pyLower form.id ∧
      (create_new_function uid form st).1.db.getById (pyLower form.id)
        = some rec ∧
      ((create_new_function uid form st).1.registry.rget
        (pyLower form.id)).isSome = true := by
  by_cases hid : pyIsIdentifier form.id = true
  case neg =>
    exfalso
    rw [Bool.not_eq_true] at hid
    unfold create_new_function at h
    rw [hid] at h
    simp [isError] at h
  case pos =>
  cases hg : st.db.getById (pyLower form.id) with
  | some r =>
    exfalso
    unfold create_new_function at h
    rw [hid] at h
    simp only [Bool.not_true, Bool.false_eq_true, if_false] at h
    rw [hg] at h
    simp [isError] at h
  | none =>
  cases hload : load_function_module_by_id (pyLower form.id)
      (replace_imports form.content) with
  | error e =>
    exfalso
    unfold create_new_function at h
    rw [hid] at h
    simp only [Bool.not_true, Bool.false_eq_true, if_false] at h
    rw [hg, hload] at h
    simp [isError] at h
  | ok lr =>
    have hI : st.db.insert uid lr.ftype
        { id := pyLower form.id, name := form.name,
          content := replace_imports form.content,
          meta := { description := form.meta.description,
                    manifest := lr.frontmatter } }
        st.now
        = some (DB.mk (st.db.functions ++
            [{ id := pyLower form.id, user_id := uid, name := form.name,
               content := replace_imports form.content, ftype := lr.ftype,
               meta := { description := form.meta.description,
                         manifest := lr.frontmatter },
               is_active := false, is_global := false, valves := [],
               created_at := st.now, updated_at := st.now }])
            st.db.user_valves,
           { id := pyLower form.id, user_id := uid, name := form.name,
             content := replace_imports form.content, ftype := lr.ftype,
             meta := { description := form.meta.description,
                       manifest := lr.frontmatter },
             is_active := false, is_global := false, valves := [],
             created_at := st.now, updated_at := st.now }) := by
      unfold DB.insert
      rw [hg]
      rfl
    have hcr : create_new_function uid form st
        = (AppState.mk
            (DB.mk (st.db.functions ++
              [{ id := pyLower form.id, user_id := uid, name := form.name,
                 content := replace_imports form.content, ftype := lr.ftype,
                 meta := { description := form.meta.description,
                           manifest := lr.frontmatter },
                 is_active := false, is_global := false, valves := [],
                 created_at := st.now, updated_at := st.now }])
              st.db.user_valves)
            (st.registry.rset (pyLower form.id) lr.module)
            st.now,
           .ok { id := pyLower form.id, user_id := uid, name := form.name,
                 content := replace_imports form.content, ftype := lr.ftype,
                 meta := { description := form.meta.description,
                           manifest := lr.frontmatter },
                 is_active := false, is_global := false, valves := [],
                 created_at := st.now, updated_at := st.now }) := by
      unfold create_new_function
      rw [hid]
      simp only [Bool.not_true, Bool.false_eq_true, if_false]
      rw [hg, hload]
      dsimp only
      rw [hI]
    rw [hcr]
    refine ⟨_, rfl, rfl, ?_, ?_⟩
    · unfold DB.getById at hg ⊢
      exact find?_append_some _ _ _ hg (by simp)
    · simp [rget_rset_self]

/-- C7: creating an already-persisted id fails with DuplicateError leaving
the state exactly as before the attempt, and no update operation (content
update or either toggle) ever changes any record's id. -/
theorem C7_id_unique_and_immutable (uid fid : String) (form : FunctionForm)
    (st : AppState) :
    (pyIsIdentifier form.id = true →
      (st.db.getById (pyLower form.id)).isSome = true →
      create_new_function uid form st = (st, .error .duplicateError)) ∧
    (update_function_by_id fid form st).1.db.functions.map (fun r => r.id)
      = st.db.functions.map (fun r => r.id) ∧
    (toggle_function_by_id fid st).1.db.functions.map (fun r => r.id)
      = st.db.functions.map (fun r => r.id) ∧
    (toggle_global_by_id fid st).1.db.functions.map (fun r => r.id)
      = st.db.functions.map (fun r => r.id) := by
  refine ⟨fun hid h => create_duplicate_of_persisted uid form st hid h,
    ?_, ?_, ?_⟩
  · unfold update_function_by_id
    split
    · rfl
    · split
      · next db' rec heq => exact update_preserves_ids _ _ _ _ _ heq
      · rfl
  · unfold toggle_function_by_id
    split
    · rfl
    · split
      · next db' rec heq => exact update_preserves_ids _ _ _ _ _ heq
      · rfl
  · unfold toggle_global_by_id
    split
    · rfl
    · split
      · next db' rec heq => exact update_preserves_ids _ _ _ _ _ heq
      · rfl

/-- C7 witness: the duplicate branch at a concrete state persisting "f",
attempted again via the case-variant id "F". -/
theorem C7_witness :
    pyIsIdentifier "F" = true ∧
    (exStateValves.db.getById (pyLower "F")).isSome = true ∧
    create_new_function "u2" (exForm "F" exContentAB) exStateValves
      = (exStateValves, .error .duplicateError) := by
  refine ⟨by decide, by decide, ?_⟩
  exact (C7_id_unique_and_immutable "u2" "f" (exForm "F" exContentAB)
    exStateValves).1 (by decide) (by decide)

/-- C10: a successful create stores the record under the lowercase of the
submitted id (after the format check, before the duplicate check, the
Registry commit and persistence), and a second create whose id differs only
in letter case targets the same id and fails as a duplicate. -/
theorem C10_lowercase_id (uid uid2 : String) (form form2 : FunctionForm)
    (st : AppState)
    (h : isError (create_new_function uid form st).2 = false)
    (h2 : pyIsIdentifier form2.id = true)
    (heq : pyLower form2.id = pyLower form.id) :
    (∃ rec, (create_new_function uid form st).2 = .ok rec ∧
      rec.id = pyLower form.id ∧
      (create_new_function uid form st).1.db.getById (pyLower form.id)
        = some rec) ∧
    ((create_new_function uid form st).1.registry.rget
      (pyLower form.id)).isSome = true ∧
    create_new_function uid2 form2 (create_new_function uid form st).1
      = ((create_new_function uid form st).1, .error .duplicateError) := by
  obtain ⟨rec, hok, hrid, hget, hreg⟩ := create_ok_characterization uid form st h
  refine ⟨⟨rec, hok, hrid, hget⟩, hreg, ?_⟩
  apply create_duplicate_of_persisted uid2 form2 _ h2
  rw [heq, hget]
  rfl

/-- C10 witness: creating "Ab" stores id "ab"; creating "aB" afterwards is
rejected as a duplicate. -/
theorem C10_witness :
    isError (create_new_function "u" (exForm "Ab" exContentAB) exEmptyState).2
      = false ∧
    pyIsIdentifier "aB" = true ∧
    pyLower "aB" = pyLower "Ab" ∧
    create_new_function "u2" (exForm "aB" exContentAB)
        (create_new_function "u" (exForm "Ab" exContentAB) exEmptyState).1
      = ((create_new_function "u" (exForm "Ab" exContentAB) exEmptyState).1,
         .error .duplicateError) := by
  refine ⟨by decide, by decide, by decide, ?_⟩
  exact (C10_lowercase_id "u" "u2" (exForm "Ab" exContentAB)
    (exForm "aB" exContentAB) exEmptyState (by decide) (by decide)
    (by decide)).2.2

/-- One is_active toggle on an existing record: the exact result state. -/
theorem toggle_active_state (fid : String) (st : AppState)
    (rec : FunctionRecord) (h : st.db.getById fid = some rec) :
    ∃ st1, toggle_function_by_id fid st
        = (st1, .ok { rec with is_active := !rec.is_active }) ∧
      st1.db.getById fid = some { rec with is_active := !rec.is_active } ∧
      st1.registry = st.registry ∧ st1.now = st.now := by
  have hu := DB.update_found st.db fid
    { is_active? := some (!rec.is_active) } rec h
  refine ⟨AppState.mk
    (DB.mk (st.db.functions.map
      (fun x => if x.id == fid then
        applyUpdate rec { is_active? := some (!rec.is_active) } else x))
      st.db.user_valves)
    st.registry st.now, ?_, hu.2, rfl, rfl⟩
  unfold toggle_function_by_id
  rw [h]
  dsimp only
  rw [hu.1]
  rfl

/-- One is_global toggle on an existing record: the exact result state. -/
theorem toggle_global_state (fid : String) (st : AppState)
    (rec : FunctionRecord) (h : st.db.getById fid = some rec) :
    ∃ st1, toggle_global_by_id fid st
        = (st1, .ok { rec with is_global := !rec.is_global }) ∧
      st1.db.getById fid = some { rec with is_global := !rec.is_global } ∧
      st1.registry = st.registry ∧ st1.now = st.now := by
  have hu := DB.update_found st.db fid
    { is_global? := some (!rec.is_global) } rec h
  refine ⟨AppState.mk
    (DB.mk (st.db.functions.map
      (fun x => if x.id == fid then
        applyUpdate rec { is_global? := some (!rec.is_global) } else x))
      st.db.user_valves)
    st.registry st.now, ?_, hu.2, rfl, rfl⟩
  unfold toggle_global_by_id
  rw [h]
  dsimp only
  rw [hu.1]
  rfl

/-- C9: on an existing record each toggle succeeds unconditionally (no module
load is involved and the Registry is untouched), flips exactly its own flag
leaving every other field unchanged, and toggling twice returns the record to
its original value; the two flags are independent. -/
theorem C9_toggle_involution (fid : String) (st : AppState)
    (rec : FunctionRecord) (h : st.db.getById fid = some rec) :
    (toggle_function_by_id fid st).2
      = .ok { rec with is_active := !rec.is_active } ∧
    (toggle_function_by_id fid st).1.db.getById fid
      = some { rec with is_active := !rec.is_active } ∧
    (toggle_function_by_id fid st).1.registry = st.registry ∧
    (toggle_function_by_id fid (toggle_function_by_id fid st).1).1.db.getById
        fid = some rec ∧
    (toggle_global_by_id fid st).2
      = .ok { rec with is_global := !rec.is_global } ∧
    (toggle_global_by_id fid st).1.registry = st.registry ∧
    (toggle_global_by_id fid (toggle_global_by_id fid st).1).1.db.getById fid
      = some rec := by
  obtain ⟨st1, he1, hg1, hr1, _⟩ := toggle_active_state fid st rec h
  obtain ⟨st2, he2, hg2, _, _⟩ := toggle_active_state fid st1 _ hg1
  obtain ⟨st3, he3, hg3, hr3, _⟩ := toggle_global_state fid st rec h
  obtain ⟨st4, he4, hg4, _, _⟩ := toggle_global_state fid st3 _ hg3
  have hback2 : ({ { rec with is_active := !rec.is_active } with
      is_active := !({ rec with is_active := !rec.is_active }).is_active }
      : FunctionRecord) = rec := by
    simp [Bool.not_not]
  have hback4 : ({ { rec with is_global := !rec.is_global } with
      is_global := !({ rec with is_global := !rec.is_global }).is_global }
      : FunctionRecord) = rec := by
    simp [Bool.not_not]
  rw [hback2] at hg2
  rw [hback4] at hg4
  rw [he1, he3]
  exact ⟨rfl, hg1, hr1, by rw [he2]; exact hg2, rfl, hr3,
    by rw [he4]; exact hg4⟩

/-- The concrete record persisted for "f" in exStateValves. -/
def exRecF : FunctionRecord :=
  { id := "f", user_id := "u", name := "n", content := exContentAB,
    ftype := .Filter,
    meta := { description := "d", manifest := [("title", "t")] },
    is_active := false, is_global := false,
    valves := [("a", .vInt 5), ("b", .vInt 7)],
    created_at := 7, updated_at := 7 }

/-- C9 witness: the toggle round-trip on the concrete state persisting "f". -/
theorem C9_witness :
    exStateValves.db.getById "f" = some exRecF ∧
    (toggle_function_by_id "f"
      (toggle_function_by_id "f" exStateValves).1).1.db.getById "f"
      = some exRecF := by
  refine ⟨by decide, ?_⟩
  exact (C9_toggle_involution "f" exStateValves exRecF (by decide)).2.2.2.1

/-- A successful load returns a handle whose provenance is exactly the
content that was loaded. -/
theorem load_ok_src (fid : String) (c : Content) (lr : LoadResult)
    (h : load_function_module_by_id fid c = .ok lr) : lr.module.src = c := by
  unfold load_function_module_by_id at h
  split at h
  · exact Except.noConfusion h
  · exact Except.noConfusion h
  · split at h
    · injection h with h
      rw [← h]
    · split at h
      · injection h with h
        rw [← h]
      · split at h
        · injection h with h
          rw [← h]
        · exact Except.noConfusion h

/-- C5 counterexample: exStrayState — reached from the empty state by one
update call on the nonexistent id "g" — holds a Registry entry for "g" with
no persisted record at all, because the update mutates the Registry before
the persistence step fails. So a Registry entry does not always reflect the
currently persisted content. -/
theorem C5_counterexample :
    isError (update_function_by_id "g" (exForm "g" exContentAB)
      exEmptyState).2 = true ∧
    (exStrayState.registry.rget "g").isSome = true ∧
    exStrayState.db.getById "g" = none := by
  refine ⟨by decide, by decide, by decide⟩

/-- C5 (amended): after every successful update the Registry entry for the id
holds the handle loaded from the new (rewritten) content and the persisted
record carries that same content; but when the persistence step fails after
validation, the Registry is still overwritten, so an entry need not reflect
persisted content. -/
theorem C5_successful_update_refreshes_registry (fid : String)
    (form : FunctionForm) (st : AppState)
    (h : isError (update_function_by_id fid form st).2 = false) :
    (∃ hdl, (update_function_by_id fid form st).1.registry.rget fid
        = some hdl ∧ hdl.src = replace_imports form.content) ∧
    (∃ rec, (update_function_by_id fid form st).1.db.getById fid = some rec ∧
      rec.content = replace_imports form.content) := by
  cases hload : load_function_module_by_id fid (replace_imports form.content)
      with
  | error e =>
    exfalso
    unfold update_function_by_id at h
    rw [hload] at h
    simp [isError] at h
  | ok lr =>
    cases hrec : st.db.getById fid with
    | none =>
      exfalso
      unfold update_function_by_id at h
      rw [hload] at h
      dsimp only at h
      have hnone : ∀ u, st.db.update fid u = none := by
        intro u
        unfold DB.update
        rw [hrec]
      rw [hnone] at h
      simp [isError] at h
    | some r =>
      have hu := DB.update_found st.db fid
        { name? := some form.name,
          content? := some (replace_imports form.content),
          meta? := some { description := form.meta.description,
                          manifest := lr.frontmatter },
          ftype? := some lr.ftype } r hrec
      have hupd : update_function_by_id fid form st
          = (AppState.mk
              (DB.mk (st.db.functions.map (fun x => if x.id == fid then
                applyUpdate r
                  { name? := some form.name,
                    content? := some (replace_imports form.content),
                    meta? := some { description := form.meta.description,
                                    manifest := lr.frontmatter },
                    ftype? := some lr.ftype } else x))
                st.db.user_valves)
              (st.registry.rset fid lr.module) st.now,
             .ok (applyUpdate r
               { name? := some form.name,
                 content? := some (replace_imports form.content),
                 meta? := some { description := form.meta.description,
                                 manifest := lr.frontmatter },
                 ftype? := some lr.ftype })) := by
        unfold update_function_by_id
        rw [hload]
        dsimp only
        rw [hu.1]
      rw [hupd]
      exact ⟨⟨lr.module, by simp [rget_rset_self],
        load_ok_src fid _ lr hload⟩,
        ⟨applyUpdate r
          { name? := some form.name,
            content? := some (replace_imports form.content),
            meta? := some { description := form.meta.description,
                            manifest := lr.frontmatter },
            ftype? := some lr.ftype }, hu.2, rfl⟩⟩

/-- A second content for "f", differing from exContentAB in frontmatter. -/
def exContentAB2 : Content :=
  ⟨[("title", "t2")], .ok ⟨true, false, false, some exSchemaAB, none⟩⟩

/-- C5 witness: a successful concrete update of "f" with fresh content. -/
theorem C5_witness :
    isError (update_function_by_id "f" (exForm "f" exContentAB2)
      exStateValves).2 = false ∧
    (∃ hdl, (update_function_by_id "f" (exForm "f" exContentAB2)
        exStateValves).1.registry.rget "f" = some hdl ∧
      hdl.src = replace_imports (exForm "f" exContentAB2).content) := by
  have h : isError (update_function_by_id "f" (exForm "f" exContentAB2)
      exStateValves).2 = false := by decide
  exact ⟨h, (C5_successful_update_refreshes_registry "f"
    (exForm "f" exContentAB2) exStateValves h).1⟩

/-- Characterization of the admin valve update on a function whose handle is
cached and declares a Valves schema: a failed construction is a validation
error leaving the whole state unchanged; a successful construction persists
exactly the constructed map and returns it, leaving the Registry alone. -/
theorem update_valves_characterization (fid : String) (m : ValveMap)
    (st : AppState) (schema : VSchema)
    (h1 : (st.db.getById fid).isSome = true)
    (h2 : (st.registry.rget fid).map (fun h => h.ns.valves?)
      = some (some schema)) :
    (buildValves schema (stripNulls m) = none →
      update_function_valves_by_id fid m st = (st, .error .validationError)) ∧
    (∀ vs, buildValves schema (stripNulls m) = some vs →
      (update_function_valves_by_id fid m st).2 = .ok vs ∧
      (update_function_valves_by_id fid m st).1.db.getValves fid = some vs ∧
      (update_function_valves_by_id fid m st).1.registry = st.registry) := by
  obtain ⟨rec, hrec⟩ := Option.isSome_iff_exists.mp h1
  obtain ⟨hdl, hh, hv⟩ := Option.map_eq_some'.mp h2
  have hens : ensureHandle fid rec st = (st, .ok hdl) := by
    unfold ensureHandle
    rw [hh]
  have hop : update_function_valves_by_id fid m st
      = (match buildValves schema (stripNulls m) with
         | none => (st, .error .validationError)
         | some vs => ({ st with db := st.db.setValves fid vs }, .ok vs)) := by
    unfold update_function_valves_by_id
    rw [hrec]
    dsimp only
    rw [hens]
    dsimp only
    rw [hv]
  constructor
  · intro hb
    rw [hop, hb]
  · intro vs hb
    rw [hop, hb]
    have hgv := DB.getById_setValves st.db fid vs rec hrec
    exact ⟨rfl, by simp [DB.getValves, hgv], rfl⟩

/-- C6: an admin valve update whose submitted value mismatches the declared
field type fails with ValidationError and leaves the state (the persisted
valves included) unchanged; a type-correct update persists and returns the
constructed valve map, with every submitted field at its new value. -/
theorem C6_valve_type_validation (fid : String) (m : ValveMap) (st : AppState)
    (schema : VSchema)
    (h1 : (st.db.getById fid).isSome = true)
    (h2 : (st.registry.rget fid).map (fun h => h.ns.valves?)
      = some (some schema)) :
    ((∃ f ∈ schema, ∃ v, (stripNulls m).lookup f.name = some v ∧
        v.hasType f.vtype = false) →
      update_function_valves_by_id fid m st = (st, .error .validationError)) ∧
    (∀ vs, buildValves schema (stripNulls m) = some vs →
      (update_function_valves_by_id fid m st).2 = .ok vs ∧
      (update_function_valves_by_id fid m st).1.db.getValves fid = some vs ∧
      ∀ f ∈ schema, ∀ v, (stripNulls m).lookup f.name = some v →
        (f.name, v) ∈ vs) := by
  have hc := update_valves_characterization fid m st schema h1 h2
  constructor
  · intro hmis
    obtain ⟨f, hf, v, hlk, ht⟩ := hmis
    exact hc.1 (buildValves_mismatch schema (stripNulls m) f hf v hlk ht)
  · intro vs hb
    obtain ⟨hr, hg, _⟩ := hc.2 vs hb
    exact ⟨hr, hg, fun f hf v hlk =>
      buildValves_mem_submitted schema (stripNulls m) vs hb f hf v hlk⟩

/-- C6 witness: against schema a:int=1, b:int=2 with persisted a=5, b=7, the
update a:"abc" is rejected leaving the state unchanged, and the update a:20
persists and returns a=20 (with b at its default). -/
theorem C6_witness :
    update_function_valves_by_id "f" [("a", .vStr "abc")] exStateValves
      = (exStateValves, .error .validationError) ∧
    (update_function_valves_by_id "f" [("a", .vInt 20)] exStateValves).2
      = .ok [("a", .vInt 20), ("b", .vInt 2)] := by
  constructor
  · exact (C6_valve_type_validation "f" [("a", .vStr "abc")] exStateValves
      exSchemaAB (by decide) (by decide)).1 (by decide)
  · exact ((C6_valve_type_validation "f" [("a", .vInt 20)] exStateValves
      exSchemaAB (by decide) (by decide)).2
      [("a", .vInt 20), ("b", .vInt 2)] (by decide)).1

/-- C3 counterexample: against schema a:int=1, b:int=2 with previously
persisted valves a=5, b=7, the partial update a:9 persists b=2 — the
schema default — rather than retaining the previously persisted b=7, so a
field not mentioned in the map does not keep its previous value. -/
theorem C3_counterexample :
    exStateValves.db.getValves "f" = some [("a", .vInt 5), ("b", .vInt 7)] ∧
    (update_function_valves_by_id "f" [("a", .vInt 9)]
      exStateValves).1.db.getValves "f"
      = some [("a", .vInt 9), ("b", .vInt 2)] := by
  refine ⟨by decide, by decide⟩

/-- C3 (amended): a partial valve update persists a fresh construction —
mentioned non-null fields take the submitted values, and every field not
mentioned is reset to its schema-declared default rather than retaining its
previously persisted value. -/
theorem C3_unmentioned_fields_reset_to_defaults (fid : String) (m : ValveMap)
    (st : AppState) (schema : VSchema) (vs : ValveMap)
    (h1 : (st.db.getById fid).isSome = true)
    (h2 : (st.registry.rget fid).map (fun h => h.ns.valves?)
      = some (some schema))
    (hb : buildValves schema (stripNulls m) = some vs) :
    (update_function_valves_by_id fid m st).1.db.getValves fid = some vs ∧
    (update_function_valves_by_id fid m st).2 = .ok vs ∧
    ∀ f ∈ schema, (stripNulls m).lookup f.name = none →
      ∃ d, f.default? = some d ∧ (f.name, d) ∈ vs := by
  obtain ⟨hr, hg, _⟩ :=
    (update_valves_characterization fid m st schema h1 h2).2 vs hb
  exact ⟨hg, hr, fun f hf hlk =>
    buildValves_mem_default schema (stripNulls m) vs hb f hf hlk⟩

/-- C3 witness: the amended theorem at the concrete partial update a:9. -/
theorem C3_witness :
    buildValves exSchemaAB (stripNulls [("a", .vInt 9)])
      = some [("a", .vInt 9), ("b", .vInt 2)] ∧
    (update_function_valves_by_id "f" [("a", .vInt 9)]
      exStateValves).1.db.getValves "f"
      = some [("a", .vInt 9), ("b", .vInt 2)] := by
  refine ⟨by decide, ?_⟩
  exact (C3_unmentioned_fields_reset_to_defaults "f" [("a", .vInt 9)]
    exStateValves exSchemaAB [("a", .vInt 9), ("b", .vInt 2)]
    (by decide) (by decide) (by decide)).1
